import Mathlib

/-!
Verification of the `opt` package (github.com/lukasngl/opt): a generic
optional-value wrapper `T[V]` for Go, with adapters for nil pointers,
zero values, JSON and SQL nullable columns.

Modelling conventions (shallow embedding of `src/opt.go`):
- Go pointers `*V` are modelled as `Option V` (`none` is the nil pointer).
- The Go zero value of a type `V` is the `GoZero.zero` of a `GoZero V`
  instance; the zero value of a struct zeroes every field, so the zero
  value of `T[V]` is `⟨GoZero.zero, false⟩` (Bool's zero is `false`).
- `json.Marshal`/`json.Unmarshal` for the wrapped type `V` are passed in
  as an encoder `V → String` (for JSON-serializable `V` marshalling is
  total) and a decoder `String → Except String V`.
- `sql.Null[V].Scan` is passed in as a delegate returning the final
  `Null` state and an optional error.
- A Go `panic` is modelled as the `none` case of an `Option` result.
- Go's `==` on the struct `T[V]` is field-wise equality, which coincides
  with Lean's structural equality `=` on the model.
-/

namespace opt

/-- The Go zero value of a value type. -/
class GoZero (V : Type) where
  zero : V

instance : GoZero Bool := ⟨false⟩

instance : GoZero Int := ⟨0⟩

instance : GoZero String := ⟨""⟩

/-- The zero value of a Go pointer type is the nil pointer. -/
instance {V : Type} : GoZero (Option V) := ⟨none⟩

/-- `type T[V any] struct { v V; present bool }` — an option: a value that
may be empty or present. -/
structure T (V : Type) where
  v : V
  present : Bool
deriving DecidableEq

/-- `IsZero` returns whether the option is empty (`!t.present`); used by
the `omitzero` struct tag from go1.24. -/
def T.IsZero {V : Type} (t : T V) : Bool :=
  !t.present

/-- `IsEmpty` returns whether the option is empty (`!t.present`). -/
def T.IsEmpty {V : Type} (t : T V) : Bool :=
  !t.present

/-- `IsPresent` returns whether the option is present (`t.present`). -/
def T.IsPresent {V : Type} (t : T V) : Bool :=
  t.present

/-- `None` creates a new empty option: `return T[V]{}`, the zero value of
the struct (payload = zero of V, present = false). -/
def None {V : Type} [GoZero V] : T V :=
  ⟨GoZero.zero, false⟩

/-- `Some` creates a new present option containing the given value. -/
def Some {V : Type} (value : V) : T V :=
  ⟨value, true⟩

/-- `Unwrap` returns the wrapped value and whether it is present. -/
def T.Unwrap {V : Type} (t : T V) : V × Bool :=
  (t.v, t.present)

/-- `FromNillable` creates an option from a pointer (modelled as
`Option V`): empty if the pointer is nil, else present with the
pointed-to value. -/
def FromNillable {V : Type} [GoZero V] (value : Option V) : T V :=
  match value with
  | none => None
  | some x => Some x

/-- `ToNillable` returns a pointer to (a copy of) the wrapped value if
present, otherwise the nil pointer. -/
def T.ToNillable {V : Type} (t : T V) : Option V :=
  match t.Unwrap with
  | (value, present) => if !present then none else some value

/-- `Must` returns the wrapped value and panics if the option is empty;
the panic is modelled as `none`, a normal return as `some`. -/
def T.Must {V : Type} (t : T V) : Option V :=
  match t.Unwrap with
  | (value, present) => if !present then none else some value

/-- `OrElse` returns the wrapped value if present and the given default
value otherwise. -/
def T.OrElse {V : Type} (t : T V) (defaultValue : V) : V :=
  match t.Unwrap with
  | (value, present) => if !present then defaultValue else value

/-- `OrZero` returns the wrapped value if present and the zero value
otherwise (it just projects the payload). -/
def T.OrZero {V : Type} (t : T V) : V :=
  (t.Unwrap).1

/-- Model of the reflection facts about a Go type `V` that `isZero` uses:
the `IsZero() bool` method when `V` implements the `isZeroer` interface
(`none` when it does not), which values of `V` are nil values of pointer
kind (`rv.Kind() == reflect.Pointer && rv.IsNil()`), and
`reflect.Value.IsZero`. -/
structure Reflect (V : Type) where
  isZeroMethod : Option (V → Bool)
  isNilPointer : V → Bool
  reflectIsZero : V → Bool

/-- `isZero`: if `V` implements `isZeroer`, a nil pointer is zero and
otherwise the method decides; else `reflect.Value.IsZero` decides. -/
def isZero {V : Type} (r : Reflect V) (value : V) : Bool :=
  match r.isZeroMethod with
  | some m => if r.isNilPointer value then true else m value
  | none => r.reflectIsZero value

/-- `FromZeroable` creates an option from a value: empty if the value is
zero (per `isZero`), else present with the value. -/
def FromZeroable {V : Type} [GoZero V] (r : Reflect V) (value : V) : T V :=
  if isZero r value then None else Some value

/-- Zeroness as the claim describes it (the spec of §4.3): a nil
reference is always zero, short-circuiting before any method invocation;
otherwise the self-reported `IsZero` method when `V` has one; otherwise
structural zero comparison. Stated from the spec's words, to be compared
with the source's `isZero`. -/
def claimIsZero {V : Type} (r : Reflect V) (value : V) : Bool :=
  if r.isNilPointer value then true
  else
    match r.isZeroMethod with
    | some m => m value
    | none => r.reflectIsZero value

/-- `MarshalJSON`: an empty option marshals to the literal `null` token,
a present option to the standard encoding of its wrapped value. For a
JSON-serializable `V` the encoder is total, so no error case arises. -/
def T.MarshalJSON {V : Type} (enc : V → String) (t : T V) : String :=
  if !t.present then "null" else enc t.v

/-- `UnmarshalJSON`: input exactly `null` clears the discriminant and
returns with the payload untouched; otherwise the payload is decoded
with the standard decoder and the option marked present. A decoder error
propagates (the receiver's intermediate state on error is unspecified by
the package and not modelled). -/
def T.UnmarshalJSON {V : Type} (dec : String → Except String V) (t : T V)
    (data : String) : Except String (T V) :=
  if data = "null" then Except.ok ⟨t.v, false⟩
  else
    match dec data with
    | Except.error e => Except.error e
    | Except.ok value => Except.ok ⟨value, true⟩

/-- Model of `sql.Null[V]`: value and validity flag. -/
structure Null (V : Type) where
  V : V
  Valid : Bool
deriving DecidableEq

/-- `Scan` delegates to `sql.Null[V].Scan` (the `delegate`, which returns
the final `Null` state and an optional error), copies the delegate's
value and validity into the option, and returns the delegate's error
unchanged. -/
def T.Scan {σ V : Type} (delegate : σ → Null V × Option String) (_t : T V)
    (src : σ) : T V × Option String :=
  match delegate src with
  | (null, err) => (⟨null.V, null.Valid⟩, err)

/-- `Value` produces the ambient nullable-scalar representation
`sql.Null[V]{V: t.v, Valid: t.present}`. -/
def T.Value {V : Type} (t : T V) : Null V :=
  ⟨t.v, t.present⟩

/-- Optional equality as the spec defines it (I2 / P3): both absent, or
both present with equal wrapped values. Stated from the spec's words, to
be compared with Go's field-wise `==` (structural `=` on the model). -/
def valueEq {V : Type} (a b : T V) : Prop :=
  (a.present = false ∧ b.present = false) ∨
  (a.present = true ∧ b.present = true ∧ a.v = b.v)

instance {V : Type} [DecidableEq V] (a b : T V) : Decidable (valueEq a b) := by
  unfold valueEq
  infer_instance

/-- The zero value of the struct `T[V]` zeroes each field: the payload
is V's zero and `present` is `false` (the zero value of `bool`). -/
instance instGoZeroT {V : Type} [GoZero V] : GoZero (T V) :=
  ⟨⟨GoZero.zero, false⟩⟩

/-- The Go scalar types that the alias block of the source mentions
(`byte` and `rune` are themselves Go aliases for `uint8` and `int32`, so
they are not separate constructors). -/
inductive GoScalarType where
  | bool
  | int8
  | int16
  | int32
  | int64
  | uint8
  | uint16
  | uint32
  | uint64
  | float32
  | float64
  | complex64
  | complex128
  | string
  | goError
deriving DecidableEq

/-- The alias names the source exports for `T` applied to builtin types. -/
inductive AliasName where
  | Bool
  | Complex128
  | Complex64
  | Byte
  | Error
  | Float32
  | Float64
  | Int8
  | Int16
  | Int32
  | Int64
  | Rune
  | String
  | Uint8
  | Uint16
  | Uint32
  | Uint64
deriving DecidableEq

/-- The scalar type each alias is applied to in the source's alias block
(lines 168-195 of opt.go), transcribed literally: note `Complex128 =
T[complex64]`, `Complex64 = T[complex128]`, and `Int8 = T[uint8]` through
`Int64 = T[uint64]`. `Byte = T[byte]` is `uint8` and `Rune = T[rune]` is
`int32` by Go's builtin aliases. -/
def aliasTarget : AliasName → GoScalarType
  | AliasName.Bool => GoScalarType.bool
  | AliasName.Complex128 => GoScalarType.complex64
  | AliasName.Complex64 => GoScalarType.complex128
  | AliasName.Byte => GoScalarType.uint8
  | AliasName.Error => GoScalarType.goError
  | AliasName.Float32 => GoScalarType.float32
  | AliasName.Float64 => GoScalarType.float64
  | AliasName.Int8 => GoScalarType.uint8
  | AliasName.Int16 => GoScalarType.uint16
  | AliasName.Int32 => GoScalarType.uint32
  | AliasName.Int64 => GoScalarType.uint64
  | AliasName.Rune => GoScalarType.int32
  | AliasName.String => GoScalarType.string
  | AliasName.Uint8 => GoScalarType.uint8
  | AliasName.Uint16 => GoScalarType.uint16
  | AliasName.Uint32 => GoScalarType.uint32
  | AliasName.Uint64 => GoScalarType.uint64

/-- The correspondingly named scalar type for each alias, as the claim
reads it: the `Int8`..`Int64` aliases name the signed integers, the
`Complex64`/`Complex128` aliases name `complex64`/`complex128`. -/
def claimedAliasTarget : AliasName → GoScalarType
  | AliasName.Bool => GoScalarType.bool
  | AliasName.Complex128 => GoScalarType.complex128
  | AliasName.Complex64 => GoScalarType.complex64
  | AliasName.Byte => GoScalarType.uint8
  | AliasName.Error => GoScalarType.goError
  | AliasName.Float32 => GoScalarType.float32
  | AliasName.Float64 => GoScalarType.float64
  | AliasName.Int8 => GoScalarType.int8
  | AliasName.Int16 => GoScalarType.int16
  | AliasName.Int32 => GoScalarType.int32
  | AliasName.Int64 => GoScalarType.int64
  | AliasName.Rune => GoScalarType.int32
  | AliasName.String => GoScalarType.string
  | AliasName.Uint8 => GoScalarType.uint8
  | AliasName.Uint16 => GoScalarType.uint16
  | AliasName.Uint32 => GoScalarType.uint32
  | AliasName.Uint64 => GoScalarType.uint64

/-- `json.Marshal` for Go `bool`. -/
def encBool (b : Bool) : String :=
  if b then "true" else "false"

/-- `json.Unmarshal` for Go `bool`. -/
def decBool (s : String) : Except String Bool :=
  if s = "true" then Except.ok true
  else if s = "false" then Except.ok false
  else Except.error "json: cannot unmarshal into Go value of type bool"

/-- `json.Marshal` for Go `*bool`: a nil pointer marshals to `null`. -/
def encPtrBool : Option Bool → String
  | none => "null"
  | some b => encBool b

/-- `json.Unmarshal` for Go `*bool`: `null` decodes to the nil pointer. -/
def decPtrBool (s : String) : Except String (Option Bool) :=
  if s = "null" then Except.ok none
  else
    match decBool s with
    | Except.ok b => Except.ok (some b)
    | Except.error e => Except.error e

/-- Reflection facts for Go `*bool`: no `IsZero` method; the nil pointer
is the nil value of pointer kind and is also structurally zero. -/
def reflectPtrBool : Reflect (Option Bool) :=
  ⟨none, Option.isNone, Option.isNone⟩

/-- `sql.Null[bool].Scan` for a source column holding a nullable boolean
(modelled as `Option Bool`): a null column yields the zero value and
`Valid = false`; a boolean column yields the value and `Valid = true`. -/
def scanBoolDelegate : Option Bool → Null Bool × Option String
  | none => (⟨false, false⟩, none)
  | some b => (⟨b, true⟩, none)

end opt

namespace opt

/-- Claim C1 (amended): deserializing exactly the null token clears the
discriminant and leaves the payload unchanged — in particular a fresh
(zero) receiver keeps V's zero payload, and `None` itself carries the
zero payload; but the payload is not reset, so `present = false` does
not in general force a zero payload. -/
theorem C1_unmarshal_null {V : Type} [GoZero V]
    (dec : String → Except String V) (t : T V) :
    T.UnmarshalJSON dec t "null" = Except.ok ⟨t.v, false⟩ ∧
    T.UnmarshalJSON dec None "null" = Except.ok (None : T V) ∧
    (None : T V).v = GoZero.zero := by
  refine ⟨?_, ?_, rfl⟩ <;> simp [T.UnmarshalJSON, None]

/-- Claim C1 (counterexample): unmarshalling the null token over the
present Optional `Some true` yields an absent Optional whose payload is
still `true`, not Bool's zero value `false` — so an Optional reachable
through the library's operations can have `present = false` with a
non-zero payload. -/
theorem C1_counterexample :
    T.UnmarshalJSON decBool (Some true) "null" = Except.ok ⟨true, false⟩ ∧
    (⟨true, false⟩ : T Bool).present = false ∧
    ¬(⟨true, false⟩ : T Bool).v = (GoZero.zero : Bool) := by
  exact ⟨by simp [T.UnmarshalJSON, Some], rfl, by decide⟩

/-- Claim C2 (amended): for a JSON-serializable V whose standard
encoding never produces the literal null token, deserializing (into a
fresh Optional) the serialization of any Optional x yields a value equal
to x in the sense of the spec's Optional equality. -/
theorem C2_roundtrip {V : Type} [GoZero V] (enc : V → String)
    (dec : String → Except String V)
    (hround : ∀ value : V, dec (enc value) = Except.ok value)
    (hnn : ∀ value : V, enc value ≠ "null") (x : T V) :
    ∃ y : T V,
      T.UnmarshalJSON dec None (T.MarshalJSON enc x) = Except.ok y ∧
      valueEq y x := by
  cases hx : x.present with
  | false =>
    refine ⟨None, ?_, Or.inl ⟨rfl, hx⟩⟩
    simp [T.MarshalJSON, T.UnmarshalJSON, hx, None]
  | true =>
    refine ⟨Some x.v, ?_, Or.inr ⟨rfl, hx, rfl⟩⟩
    simp [T.MarshalJSON, T.UnmarshalJSON, hx, hnn x.v, hround x.v, Some]

/-- Claim C2 (witness): the round-trip theorem applied to the Go `bool`
codec and the present Optional `Some true`. -/
theorem C2_roundtrip_witness :
    (∀ value : Bool, decBool (encBool value) = Except.ok value) ∧
    (∀ value : Bool, encBool value ≠ "null") ∧
    ∃ y : T Bool,
      T.UnmarshalJSON decBool None (T.MarshalJSON encBool (Some true)) =
        Except.ok y ∧
      valueEq y (Some true) :=
  ⟨fun value => by cases value <;> rfl,
    fun value => by cases value <;> decide,
    C2_roundtrip encBool decBool (fun value => by cases value <;> rfl)
      (fun value => by cases value <;> decide) (Some true)⟩

/-- Claim C2 (counterexample): for V = `*bool` (a JSON-serializable
type), the present Optional wrapping the nil pointer marshals to the
null token, which unmarshals to the absent Optional — the round trip
fails, both as structural equality and as the spec's Optional
equality. -/
theorem C2_counterexample :
    T.MarshalJSON encPtrBool (Some (none : Option Bool)) = "null" ∧
    T.UnmarshalJSON decPtrBool None "null" =
      Except.ok (None : T (Option Bool)) ∧
    ¬valueEq (None : T (Option Bool)) (Some (none : Option Bool)) ∧
    (None : T (Option Bool)) ≠ Some (none : Option Bool) := by
  refine ⟨rfl, by simp [T.UnmarshalJSON, None], by decide, by decide⟩

/-- Claim C3: converting any Optional to a nullable pointer and back
yields an Optional value-equal to the original (both absent, or both
present with equal wrapped values). -/
theorem C3_pointer_roundtrip {V : Type} [GoZero V] (x : T V) :
    valueEq (FromNillable x.ToNillable) x := by
  cases hx : x.present with
  | false =>
    have h1 : x.ToNillable = none := by simp [T.ToNillable, T.Unwrap, hx]
    rw [h1]
    exact Or.inl ⟨rfl, hx⟩
  | true =>
    have h1 : x.ToNillable = some x.v := by simp [T.ToNillable, T.Unwrap, hx]
    rw [h1]
    exact Or.inr ⟨rfl, hx, rfl⟩

/-- Claim C4: `IsZero` is identical to the absence check `IsEmpty`, is
true exactly when the Optional is absent, and a present Optional is
never considered zero — even when it wraps V's zero value. -/
theorem C4_iszero {V : Type} [GoZero V] (x : T V) (value : V) :
    x.IsZero = x.IsEmpty ∧ (x.IsZero = true ↔ x.IsPresent = false) ∧
    (Some value).IsZero = false ∧ (Some (GoZero.zero : V)).IsZero = false := by
  refine ⟨rfl, ?_, rfl, rfl⟩
  simp [T.IsZero, T.IsPresent]

/-- Claim C5 (amended): Go's `==` on `T[V]` is field-wise equality; on
Optionals whose payload is V's zero whenever they are absent (invariant
I1), it coincides with the claimed characterization — both absent, or
both present with equal wrapped values. -/
theorem C5_equality {V : Type} [GoZero V] (a b : T V)
    (ha : a.present = false → a.v = GoZero.zero)
    (hb : b.present = false → b.v = GoZero.zero) :
    a = b ↔ valueEq a b := by
  constructor
  · rintro rfl
    cases hp : a.present with
    | false => exact Or.inl ⟨hp, hp⟩
    | true => exact Or.inr ⟨hp, hp, rfl⟩
  · rintro (⟨h1, h2⟩ | ⟨h1, h2, h3⟩)
    · have hav := ha h1
      have hbv := hb h2
      cases a
      cases b
      simp_all
    · cases a
      cases b
      simp_all

/-- Claim C5 (witness): the equality theorem applied to two absent
Optionals of type `T Bool` in canonical form. -/
theorem C5_equality_witness :
    ((None : T Bool).present = false → (None : T Bool).v = GoZero.zero) ∧
    ((None : T Bool) = None ↔ valueEq (None : T Bool) None) :=
  ⟨fun _ => rfl, C5_equality None None (fun _ => rfl) (fun _ => rfl)⟩

/-- Claim C5 (counterexample): the Optional `⟨true, false⟩` (reachable
by unmarshalling null over `Some true`, see the C1 analysis) and `None`
are both absent, yet they are not `==`-equal, because Go's `==`
compares the stale payload field-wise. -/
theorem C5_counterexample :
    (⟨true, false⟩ : T Bool).present = false ∧
    (None : T Bool).present = false ∧
    (⟨true, false⟩ : T Bool) ≠ (None : T Bool) := by
  decide

/-- Claim C6: `FromZeroable` returns an absent Optional exactly when the
value is zero and a present one otherwise, with zeroness decided as the
claim describes — nil reference always zero (short-circuiting before any
method invocation), else the self-reported `IsZero` method when `V` has
one, else structural zero comparison. The hypothesis records Go's
guarantee that `reflect.Value.IsZero` is true on a nil pointer. -/
theorem C6_fromZeroable {V : Type} [GoZero V] (r : Reflect V) (value : V)
    (hnil : ∀ x : V, r.isNilPointer x = true → r.reflectIsZero x = true) :
    FromZeroable r value =
      if claimIsZero r value then None else Some value := by
  have h : isZero r value = claimIsZero r value := by
    unfold isZero claimIsZero
    cases hm : r.isZeroMethod with
    | some m => cases hp : r.isNilPointer value <;> simp [hp]
    | none =>
      cases hp : r.isNilPointer value with
      | false => simp [hp]
      | true => simp [hp, hnil value hp]
  unfold FromZeroable
  rw [h]

/-- Claim C6 (witness): the theorem applied to the reflection facts of
Go `*bool` and a non-nil pointer to `true`. -/
theorem C6_fromZeroable_witness :
    (∀ x : Option Bool, reflectPtrBool.isNilPointer x = true →
      reflectPtrBool.reflectIsZero x = true) ∧
    FromZeroable reflectPtrBool (some true) =
      (if claimIsZero reflectPtrBool (some true) then None
        else Some (some true)) :=
  ⟨by decide, C6_fromZeroable reflectPtrBool (some true) (by decide)⟩

/-- Claim C7: evaluation of the alias block at the offending aliases —
the source applies the signed-integer alias names Int8..Int64 to the
unsigned integer types uint8..uint64 and swaps Complex64/Complex128,
diverging from the correspondingly named scalar types; by contrast the
Bool/Byte/Rune/String aliases do match their names. -/
theorem C7_alias_mismatch :
    aliasTarget AliasName.Int8 = GoScalarType.uint8 ∧
    aliasTarget AliasName.Int16 = GoScalarType.uint16 ∧
    aliasTarget AliasName.Int32 = GoScalarType.uint32 ∧
    aliasTarget AliasName.Int64 = GoScalarType.uint64 ∧
    aliasTarget AliasName.Complex64 = GoScalarType.complex128 ∧
    aliasTarget AliasName.Complex128 = GoScalarType.complex64 ∧
    aliasTarget AliasName.Int8 ≠ claimedAliasTarget AliasName.Int8 ∧
    aliasTarget AliasName.Int16 ≠ claimedAliasTarget AliasName.Int16 ∧
    aliasTarget AliasName.Int32 ≠ claimedAliasTarget AliasName.Int32 ∧
    aliasTarget AliasName.Int64 ≠ claimedAliasTarget AliasName.Int64 ∧
    aliasTarget AliasName.Complex64 ≠ claimedAliasTarget AliasName.Complex64 ∧
    aliasTarget AliasName.Complex128 ≠ claimedAliasTarget AliasName.Complex128 ∧
    aliasTarget AliasName.Bool = claimedAliasTarget AliasName.Bool ∧
    aliasTarget AliasName.Byte = claimedAliasTarget AliasName.Byte ∧
    aliasTarget AliasName.Rune = claimedAliasTarget AliasName.Rune ∧
    aliasTarget AliasName.String = claimedAliasTarget AliasName.String := by
  decide

/-- Claim C8: `Must` on an absent Optional never returns normally (the
panic is modelled as `none`), and on a present Optional returns the
wrapped value; `Must` is a pure function of the Optional, so it has no
side effect. -/
theorem C8_must {V : Type} (x : T V) :
    (x.IsPresent = false → x.Must = none) ∧
    (x.IsPresent = true → x.Must = some x.v) := by
  constructor
  · intro h
    have hp : x.present = false := h
    simp [T.Must, T.Unwrap, hp]
  · intro h
    have hp : x.present = true := h
    simp [T.Must, T.Unwrap, hp]

/-- Claim C8 (witness): the theorem applied to `Some true` and to
`None` of type `T Bool`. -/
theorem C8_must_witness :
    (Some true : T Bool).Must = some true ∧ (None : T Bool).Must = none :=
  ⟨(C8_must (Some true)).2 rfl, (C8_must (None : T Bool)).1 rfl⟩

/-- Claim C9: `Scan` delegates to the `sql.Null[V]` scanning primitive
and copies its (value, validity) into the Optional; the delegate's error
is returned unchanged, and when the delegate succeeds and satisfies its
contract (validity = column non-null, value = scanned value, zero on a
null column), the Optional's present flag and payload are exactly
those. -/
theorem C9_scan {σ V : Type} [GoZero V]
    (delegate : σ → Null V × Option String)
    (isNull : σ → Bool) (conv : σ → V)
    (hok : ∀ s : σ, (delegate s).2 = none →
      (delegate s).1.Valid = !isNull s ∧ (delegate s).1.V = conv s)
    (hzero : ∀ s : σ, isNull s = true → conv s = GoZero.zero)
    (t : T V) (s : σ) :
    (T.Scan delegate t s).2 = (delegate s).2 ∧
    ((delegate s).2 = none →
      (T.Scan delegate t s).1.present = !isNull s ∧
      (T.Scan delegate t s).1.v = conv s ∧
      (isNull s = true → (T.Scan delegate t s).1.v = GoZero.zero)) := by
  have hscan : T.Scan delegate t s =
      (⟨(delegate s).1.V, (delegate s).1.Valid⟩, (delegate s).2) := by
    simp [T.Scan]
  refine ⟨by rw [hscan], fun herr => ?_⟩
  obtain ⟨h1, h2⟩ := hok s herr
  rw [hscan]
  exact ⟨h1, h2, fun hn => h2.trans (hzero s hn)⟩

/-- Claim C9 (witness): the theorem applied to the `sql.Null[bool]`
delegate, an arbitrary receiver, and a non-null boolean column. -/
theorem C9_scan_witness :
    (∀ s : Option Bool, (scanBoolDelegate s).2 = none →
      (scanBoolDelegate s).1.Valid = !Option.isNone s ∧
      (scanBoolDelegate s).1.V = Option.getD s false) ∧
    ((T.Scan scanBoolDelegate (None : T Bool) (some true)).2 =
      (scanBoolDelegate (some true)).2 ∧
    ((scanBoolDelegate (some true)).2 = none →
      (T.Scan scanBoolDelegate (None : T Bool) (some true)).1.present =
        !Option.isNone (some true) ∧
      (T.Scan scanBoolDelegate (None : T Bool) (some true)).1.v =
        Option.getD (some true) false ∧
      (Option.isNone (some true) = true →
        (T.Scan scanBoolDelegate (None : T Bool) (some true)).1.v =
          GoZero.zero))) :=
  ⟨by decide,
    C9_scan scanBoolDelegate Option.isNone (fun s => Option.getD s false)
      (by decide) (by decide) None (some true)⟩

/-- Claim C10: the zero value of the wrapper struct `T[V]` (every field
zeroed) is the absent Optional: it equals `None`, reports not present,
carries V's zero value as payload, unwraps to (zero, false), and is
value-equal to `None`. -/
theorem C10_zero_value_is_none {V : Type} [GoZero V] :
    (GoZero.zero : T V) = None ∧
    (GoZero.zero : T V).IsPresent = false ∧
    (GoZero.zero : T V).v = GoZero.zero ∧
    (GoZero.zero : T V).Unwrap = (GoZero.zero, false) ∧
    valueEq (GoZero.zero : T V) None :=
  ⟨rfl, rfl, rfl, rfl, Or.inl ⟨rfl, rfl⟩⟩

end opt
